import Mathlib

/-!
Verification development for the Babylon.js screenshot capture pipeline
(packages/dev/core/src/Misc/screenshotTools.ts) and the glTF loader
extension registry (packages/dev/loaders/src/glTF/2.0/glTFLoaderExtensionRegistry.ts).

The TypeScript code is shallowly embedded: JavaScript numbers are modelled as
rationals (no NaN/Infinity is representable, which matches all inputs the
claims quantify over), `Math.floor`/`Math.round`/`Math.abs` become the
corresponding rational operations, and the `| 0` coercion becomes truncation
followed by a wrap into signed 32-bit range.  The asynchronous capture
orchestrator is embedded as an explicit state-passing function over an
engine/scene/camera world, with the points where the environment can diverge
(readiness polling, shader compilation, render-pass exceptions, pixel
readback) exposed as boolean fields of an environment record, and the
externally observable events (render passes, texture allocation/disposal,
encoder invocations) recorded in a trace.
-/

attribute [local semireducible] Rat.mul Rat.add Rat.inv Rat.ofScientific

namespace Screenshot

/-- JavaScript truthiness of an optional numeric field: absent (`undefined`)
and `0` are falsy, every other rational is truthy. -/
def jsTruthy : Option ℚ → Bool
  | none => false
  | some x => decide (x ≠ 0)

/-- Value of an optional numeric field, with `undefined` read as 0 (only ever
used under a truthiness guard, mirroring the TypeScript). -/
def optVal : Option ℚ → ℚ
  | none => 0
  | some x => x

/-- JavaScript `Math.round`: round half toward positive infinity. -/
def jsRound (x : ℚ) : ℚ := ((⌊x + 1/2⌋ : ℤ) : ℚ)

/-- JavaScript `Math.floor`. -/
def jsFloor (x : ℚ) : ℚ := ((⌊x⌋ : ℤ) : ℚ)

/-- JavaScript `Math.abs`. -/
def jsAbs (x : ℚ) : ℚ := |x|

/-- JavaScript `ToInt32` truncation toward zero (the first step of `| 0`). -/
def jsTrunc (x : ℚ) : ℤ := if 0 ≤ x then ⌊x⌋ else ⌈x⌉

/-- Wrap an integer into the signed 32-bit range, as JavaScript `ToInt32`. -/
def toInt32 (n : ℤ) : ℤ := (n + 2 ^ 31) % 2 ^ 32 - 2 ^ 31

/-- JavaScript `x | 0` applied to a number. -/
def bitOrZero (x : ℚ) : ℤ := toInt32 (jsTrunc x)

/-- The `IScreenshotSize` object: all fields optional. -/
structure IScreenshotSize where
  precision : Option ℚ := none
  width : Option ℚ := none
  height : Option ℚ := none
  finalWidth : Option ℚ := none
  finalHeight : Option ℚ := none
deriving DecidableEq, Repr

/-- The `size` parameter: either a plain number or an `IScreenshotSize`. -/
inductive SizeInput where
  | num (n : ℚ)
  | obj (o : IScreenshotSize)
deriving DecidableEq, Repr

/-- Precision multiplier: `size.precision ? Math.abs(size.precision) : 1`
(screenshotTools.ts lines 539-541). -/
def computePrecision (pr : Option ℚ) : ℚ :=
  if jsTruthy pr then jsAbs (optVal pr) else 1

/-- Raw width/height resolution for an object-valued `size`
(screenshotTools.ts lines 543-560); `renderWidth` is the engine's reported
render width and `aspect` the camera aspect ratio. -/
def objDims (renderWidth aspect precision : ℚ) (ow oh : Option ℚ) : ℚ × ℚ :=
  if jsTruthy ow && jsTruthy oh then
    (optVal ow * precision, optVal oh * precision)
  else if jsTruthy ow && !jsTruthy oh then
    let w := optVal ow * precision
    (w, jsRound (w / aspect))
  else if jsTruthy oh && !jsTruthy ow then
    let h := optVal oh * precision
    (jsRound (h * aspect), h)
  else
    let w := jsRound (renderWidth * precision)
    (w, jsRound (w / aspect))

/-- Raw finalWidth/finalHeight resolution for an object-valued `size`
(screenshotTools.ts lines 562-579). -/
def finalDims (aspect : ℚ) (ofw ofh : Option ℚ) (w h : ℚ) : ℚ × ℚ :=
  if jsTruthy ofw && jsTruthy ofh then
    (optVal ofw, optVal ofh)
  else if jsTruthy ofw && !jsTruthy ofh then
    let fw := optVal ofw
    (fw, jsRound (fw / aspect))
  else if jsTruthy ofh && !jsTruthy ofw then
    let fh := optVal ofh
    (jsRound (fh * aspect), fh)
  else
    (w, h)

/-- The four raw (pre-floor, pre-`|0`) dimensions computed by
`GetScreenshotSize`, as (width, height, finalWidth, finalHeight).  A numeric
`size` is never NaN here (rationals have no NaN), so the `!isNaN` branch of
line 582 is always taken. -/
def ComputeScreenshotSizeRaw (renderWidth aspect : ℚ) : SizeInput → ℚ × ℚ × ℚ × ℚ
  | .num n => (n, n, n, n)
  | .obj o =>
    let precision := computePrecision o.precision
    let wh := objDims renderWidth aspect precision o.width o.height
    let fwh := finalDims aspect o.finalWidth o.finalHeight wh.1 wh.2
    (wh.1, wh.2, fwh.1, fwh.2)

/-- Result record of `GetScreenshotSize` (field order as in the source's
return object on line 606). -/
structure ScreenshotDims where
  height : ℤ
  width : ℤ
  finalWidth : ℤ
  finalHeight : ℤ
deriving DecidableEq, Repr

/-- The guarded flooring `if (width) { width = Math.floor(width); }` of
screenshotTools.ts lines 593-604. -/
def floorTruthy (x : ℚ) : ℚ := if x ≠ 0 then jsFloor x else x

/-- Embedding of `GetScreenshotSize` (screenshotTools.ts lines 531-607). -/
def GetScreenshotSize (renderWidth aspect : ℚ) (size : SizeInput) : ScreenshotDims :=
  let r := ComputeScreenshotSizeRaw renderWidth aspect size
  { height := bitOrZero (floorTruthy r.2.1)
    width := bitOrZero (floorTruthy r.1)
    finalWidth := bitOrZero (floorTruthy r.2.2.1)
    finalHeight := bitOrZero (floorTruthy r.2.2.2) }

/-!
State model for the capture orchestrator `CreateScreenshotUsingRenderTarget`
(screenshotTools.ts lines 237-447).  The engine's `getRenderWidth` /
`getRenderHeight` members are closures that read `engine._currentRenderTarget`
at call time; they are modelled as functions taking the `useScreen` argument
and the currently bound render target.  Cameras and meshes are identified by
natural numbers.  The asynchronous structure (retry polling, end-of-frame
observer, promise chains) is linearised into the causal order in which the
callbacks run; the points where the environment decides the outcome are the
boolean fields of `CaptureEnv`.
-/

/-- Width/height of a render target, as read by the overridden accessors. -/
structure RTSize where
  width : ℤ
  height : ℤ
deriving DecidableEq, Repr

/-- Type of `engine.getRenderWidth` / `engine.getRenderHeight`: the closure
receives the `useScreen` argument and the engine's current render target. -/
abbrev Accessor := Bool → Option RTSize → ℤ

/-- The engine state touched by the capture orchestrator. -/
structure EngineState where
  skipFrameRender : Bool
  getRenderWidth : Accessor
  getRenderHeight : Accessor
  currentRenderTarget : Option RTSize

/-- The scene state touched by the capture orchestrator. -/
structure SceneState where
  activeCamera : Option ℕ
  activeCameras : Option (List ℕ)
  spritesEnabled : Bool
  meshes : List ℕ
deriving DecidableEq, Repr

/-- The camera state touched by the capture orchestrator. -/
structure CameraState where
  id : ℕ
  outputRenderTarget : Option ℕ
deriving DecidableEq, Repr

/-- The engine/scene/camera world the orchestrator mutates and restores. -/
structure World where
  engine : EngineState
  scene : SceneState
  camera : CameraState

/-- The offscreen `RenderTargetTexture` allocated by the capture
(screenshotTools.ts lines 304-325). -/
structure RTTState where
  size : RTSize
  renderList : List ℕ
  renderSprites : Bool
  activeCamera : ℕ
deriving DecidableEq, Repr

/-- Capture request parameters relevant to the modelled behaviour. -/
structure CaptureParams where
  size : SizeInput
  samples : ℕ := 1
  antialiasing : Bool := false
  renderSprites : Bool := false

/-- Environment choices at the suspension points of one capture request,
together with the pixel data produced by the GPU.  `readPixels` gives the
bytes read back on the direct path and `readResized` those read after the
resize post-process; both are functions of the requested dimensions, of
whether the render pass threw, and of the world in effect during the render
pass, so that the embedding does not decide GPU contents itself. -/
structure CaptureEnv where
  renderThrows : Bool
  readinessOk : Bool
  readbackOk : Bool
  effectReadyAtCreation : Bool
  compileCompletes : Bool
  readPixels : ℤ → ℤ → Bool → World → List ℕ
  readResized : ℤ → ℤ → ℤ → ℤ → Bool → World → List ℕ

/-- Externally observable events of one capture request. -/
structure Trace where
  failedInvalidSize : Bool := false
  texturesAllocated : ℕ := 0
  textureSize : Option RTSize := none
  renderToTextureCount : ℕ := 0
  renderCount : ℕ := 0
  renderThrew : Bool := false
  usedResizePass : Bool := false
  textureDisposed : Bool := false
  dumped : Option (ℤ × ℤ × List ℕ) := none
deriving DecidableEq, Repr

/-- Dimensions handed to the encoder, if any encoder call happened. -/
def Trace.dumpedSize (t : Trace) : Option (ℤ × ℤ) := t.dumped.map fun d => (d.1, d.2.1)

/-- The overridden `engine.getRenderWidth` closure installed during a capture
(screenshotTools.ts lines 281-287). -/
def overrideWidthAcc (w : ℤ) : Accessor := fun useScreen rt =>
  match useScreen, rt with
  | false, some t => t.width
  | _, _ => w

/-- The overridden `engine.getRenderHeight` closure installed during a capture
(screenshotTools.ts lines 288-294). -/
def overrideHeightAcc (h : ℤ) : Accessor := fun useScreen rt =>
  match useScreen, rt with
  | false, some t => t.height
  | _, _ => h

/-- Engine state after the synchronous setup phase: `skipFrameRender` set and
both render-size accessors overridden (screenshotTools.ts lines 272-294). -/
def overriddenEngine (dims : ScreenshotDims) (e : EngineState) : EngineState :=
  { e with
    skipFrameRender := true
    getRenderWidth := overrideWidthAcc dims.width
    getRenderHeight := overrideHeightAcc dims.height }

/-- The offscreen texture as configured on lines 304-324: sized to the raw
target dimensions, render list a copy of `scene.meshes`. -/
def screenshotTextureOf (p : CaptureParams) (dims : ScreenshotDims) (w : World) : RTTState :=
  { size := { width := dims.width, height := dims.height }
    renderList := w.scene.meshes
    renderSprites := p.renderSprites
    activeCamera := w.camera.id }

/-- The world in effect during the single `scene.render()` call: requested
camera active, camera list cleared, camera output redirected to the capture
texture (modelled as handle 0), sprites toggled, meshes replaced by the
texture's render list (screenshotTools.ts lines 376-382). -/
def worldAtRenderPass (p : CaptureParams) (tex : RTTState) (w : World) : World :=
  { engine := w.engine
    scene :=
      { w.scene with
        activeCamera := some w.camera.id
        activeCameras := none
        spritesEnabled := p.renderSprites
        meshes := tex.renderList }
    camera := { w.camera with outputRenderTarget := some 0 } }

/-- The world after the `finally` block (screenshotTools.ts lines 387-406):
scene and camera fields restored from the snapshot `orig`, accessors restored,
and `skipFrameRender` set to `false`. -/
def restoredWorld (orig : World) (w : World) : World :=
  { engine :=
      { w.engine with
        getRenderWidth := orig.engine.getRenderWidth
        getRenderHeight := orig.engine.getRenderHeight
        skipFrameRender := false }
    scene :=
      { w.scene with
        activeCamera := orig.scene.activeCamera
        activeCameras := orig.scene.activeCameras
        spritesEnabled := orig.scene.spritesEnabled
        meshes := orig.scene.meshes }
    camera := { w.camera with outputRenderTarget := orig.camera.outputRenderTarget } }

/-- The end-of-frame readback callback (screenshotTools.ts lines 333-365):
direct `readPixels` when the raw size equals the final size, otherwise the
resize post-process followed by `_readTexturePixels`.  In both branches the
texture is disposed only inside the fulfilled continuation of the readback
promise, so a failed readback leaves it undisposed. -/
def endFrameReadback (env : CaptureEnv) (dims : ScreenshotDims) (wr : World)
    (base : Trace) : Trace :=
  if dims.finalWidth = dims.width ∧ dims.finalHeight = dims.height then
    if env.readbackOk then
      { base with
        usedResizePass := false
        textureDisposed := true
        dumped := some (dims.width, dims.height,
          env.readPixels dims.width dims.height env.renderThrows wr) }
    else
      { base with usedResizePass := false, textureDisposed := false, dumped := none }
  else
    if env.readbackOk then
      { base with
        usedResizePass := true
        textureDisposed := true
        dumped := some (dims.finalWidth, dims.finalHeight,
          env.readResized dims.width dims.height dims.finalWidth dims.finalHeight
            env.renderThrows wr) }
    else
      { base with usedResizePass := true, textureDisposed := false, dumped := none }

/-- The readiness-success continuation of `_RetryWithInterval`
(screenshotTools.ts lines 332-406): register the end-of-frame callback,
snapshot and swap the scene setup, run the single render pass inside
try/finally (restoration is unconditional), then run the end-of-frame
readback.  `w0` is the pre-capture world used for the snapshot and for the
saved accessors; `w` is the world after the synchronous setup phase. -/
def onReadySuccess (env : CaptureEnv) (p : CaptureParams) (dims : ScreenshotDims)
    (tex : RTTState) (w0 : World) (w : World) : World × Trace :=
  let wr := worldAtRenderPass p tex w
  let wf := restoredWorld w0 wr
  let base : Trace :=
    { failedInvalidSize := false
      texturesAllocated := 1
      textureSize := some tex.size
      renderToTextureCount := 1
      renderCount := 1
      renderThrew := env.renderThrows }
  (wf, endFrameReadback env dims wr base)

/-- Embedding of `renderWhenReady` (screenshotTools.ts lines 329-415): either
the readiness poll eventually succeeds and the render phase runs, or the
retry tool signals an error, in which case only `skipFrameRender` and the two
accessors are restored (lines 408-413) and no render pass, readback or
texture disposal happens. -/
def renderWhenReady (env : CaptureEnv) (p : CaptureParams) (dims : ScreenshotDims)
    (tex : RTTState) (w0 : World) (w : World) : World × Trace :=
  if env.readinessOk then
    onReadySuccess env p dims tex w0 w
  else
    ({ w with
        engine :=
          { w.engine with
            skipFrameRender := false
            getRenderWidth := w0.engine.getRenderWidth
            getRenderHeight := w0.engine.getRenderHeight } },
     { failedInvalidSize := false
       texturesAllocated := 1
       textureSize := some tex.size
       renderToTextureCount := 1
       renderCount := 0 })

/-- Embedding of `renderToTexture` (screenshotTools.ts lines 417-423): bump
the render id, reset cached materials (no observable state in this model) and
hand over to `renderWhenReady`. -/
def renderToTexture (env : CaptureEnv) (p : CaptureParams) (dims : ScreenshotDims)
    (tex : RTTState) (w0 : World) (w : World) : World × Trace :=
  renderWhenReady env p dims tex w0 w

/-- The raw render width passed to `GetScreenshotSize` by the orchestrator:
the not-yet-overridden `engine.getRenderWidth()` call on line 558 observes the
current render target. -/
def captureRenderWidth (w : World) : ℚ :=
  ((w.engine.getRenderWidth false w.engine.currentRenderTarget : ℤ) : ℚ)

/-- The dimensions one capture request resolves, as on line 263. -/
def captureDims (p : CaptureParams) (aspect : ℚ) (w : World) : ScreenshotDims :=
  GetScreenshotSize (captureRenderWidth w) aspect p.size

/-- Embedding of `CreateScreenshotUsingRenderTarget` (screenshotTools.ts
lines 237-447) over one capture request.  The `successCallback`, mime type,
file name and quality parameters only flow through to the encoder and are not
modelled; `customizeTexture` is not modelled (identity hook).  Returns the
final world together with the trace of observable events. -/
def CreateScreenshotUsingRenderTarget (env : CaptureEnv) (p : CaptureParams)
    (aspect : ℚ) (w0 : World) : World × Trace :=
  let dims := captureDims p aspect w0
  if dims.height = 0 ∨ dims.width = 0 then
    (w0, { failedInvalidSize := true })
  else
    let w1 : World := { w0 with engine := overriddenEngine dims w0.engine }
    let tex := screenshotTextureOf p dims w0
    if p.antialiasing then
      if env.effectReadyAtCreation then
        renderToTexture env p dims tex w0 w1
      else if env.compileCompletes then
        renderToTexture env p dims tex w0 w1
      else
        (w1, { texturesAllocated := 1, textureSize := some tex.size })
    else
      renderToTexture env p dims tex w0 w1

/-- Sample engine: 800×600 display surface, no bound render target, frame
rendering enabled. -/
def sampleEngine : EngineState :=
  { skipFrameRender := false
    getRenderWidth := fun _ _ => 800
    getRenderHeight := fun _ _ => 600
    currentRenderTarget := none }

/-- Sample scene with a non-trivial camera list and mesh list. -/
def sampleScene : SceneState :=
  { activeCamera := some 1
    activeCameras := some [1, 2]
    spritesEnabled := true
    meshes := [10, 11] }

/-- Sample capture camera. -/
def sampleCamera : CameraState := { id := 1, outputRenderTarget := none }

/-- Sample pre-capture world. -/
def sampleWorld : World := ⟨sampleEngine, sampleScene, sampleCamera⟩

/-- Sample environment in which every asynchronous step succeeds. -/
def sampleEnv : CaptureEnv :=
  { renderThrows := false
    readinessOk := true
    readbackOk := true
    effectReadyAtCreation := true
    compileCompletes := true
    readPixels := fun _ _ _ _ => [1, 2, 3]
    readResized := fun _ _ _ _ _ _ => [4, 5] }

/-- Sample request: uniform size 256, no antialiasing. -/
def sampleParams : CaptureParams := { size := .num 256 }

/-- Pre-capture world whose engine already has frame rendering skipped. -/
def skipTrueWorld : World :=
  { sampleWorld with engine := { sampleEngine with skipFrameRender := true } }

/-- Environment in which rendering works but the pixel readback promise
rejects. -/
def readbackFailEnv : CaptureEnv := { sampleEnv with readbackOk := false }

/-- Capture request of testable property 5: raw capture 100×50, final output
400×200. -/
def resizeParams : CaptureParams :=
  { size := .obj
      { width := some 100, height := some 50, finalWidth := some 400, finalHeight := some 200 } }

end Screenshot

namespace GLTFRegistry

/-!
Embedding of the glTF 2.0 loader extension registry
(glTFLoaderExtensionRegistry.ts).  The `RegisteredGLTFExtensions` JavaScript
`Map` is modelled as an association list with unique keys; since a `Map`
never holds two entries with the same key, deleting a key is modelled as
removing every pair carrying it.  Factory functions are modelled as abstract
numeric handles. -/

/-- One registry entry: the `IRegisteredGLTFExtension` record. -/
structure RegisteredGLTFExtension where
  isGLTFExtension : Bool
  factory : ℕ
deriving DecidableEq, Repr

/-- State of the `RegisteredGLTFExtensions` map. -/
abbrev ExtensionMap := List (String × RegisteredGLTFExtension)

/-- Lookup in the map (`Map.prototype.get`). -/
def mapGet (name : String) : ExtensionMap → Option RegisteredGLTFExtension
  | [] => none
  | kv :: rest => if kv.1 = name then some kv.2 else mapGet name rest

/-- Removal from the map (`Map.prototype.delete`, minus its Boolean result). -/
def mapDelete (name : String) : ExtensionMap → ExtensionMap
  | [] => []
  | kv :: rest => if kv.1 = name then mapDelete name rest else kv :: mapDelete name rest

/-- Embedding of `unregisterGLTFExtension` (glTFLoaderExtensionRegistry.ts
lines 45-47): returns the Boolean result of `Map.prototype.delete` together
with the updated map. -/
def unregisterGLTFExtension (name : String) (m : ExtensionMap) : Bool × ExtensionMap :=
  ((mapGet name m).isSome, mapDelete name m)

/-- Embedding of `registerGLTFExtension` (glTFLoaderExtensionRegistry.ts
lines 28-37): first unregisters `name` (logging a warning when something was
removed — the returned Boolean), then sets the new entry. -/
def registerGLTFExtension (name : String) (isExt : Bool) (factory : ℕ)
    (m : ExtensionMap) : Bool × ExtensionMap :=
  let u := unregisterGLTFExtension name m
  (u.1, u.2 ++ [(name, { isGLTFExtension := isExt, factory := factory })])

end GLTFRegistry

namespace Screenshot

theorem endFrameReadback_renderCount (env : CaptureEnv) (dims : ScreenshotDims)
    (wr : World) (base : Trace) :
    (endFrameReadback env dims wr base).renderCount = base.renderCount := by
  unfold endFrameReadback
  split <;> split <;> rfl

theorem endFrameReadback_texturesAllocated (env : CaptureEnv) (dims : ScreenshotDims)
    (wr : World) (base : Trace) :
    (endFrameReadback env dims wr base).texturesAllocated = base.texturesAllocated := by
  unfold endFrameReadback
  split <;> split <;> rfl

theorem endFrameReadback_renderToTextureCount (env : CaptureEnv) (dims : ScreenshotDims)
    (wr : World) (base : Trace) :
    (endFrameReadback env dims wr base).renderToTextureCount = base.renderToTextureCount := by
  unfold endFrameReadback
  split <;> split <;> rfl

theorem endFrameReadback_renderThrew (env : CaptureEnv) (dims : ScreenshotDims)
    (wr : World) (base : Trace) :
    (endFrameReadback env dims wr base).renderThrew = base.renderThrew := by
  unfold endFrameReadback
  split <;> split <;> rfl

theorem endFrameReadback_textureSize (env : CaptureEnv) (dims : ScreenshotDims)
    (wr : World) (base : Trace) :
    (endFrameReadback env dims wr base).textureSize = base.textureSize := by
  unfold endFrameReadback
  split <;> split <;> rfl

theorem endFrameReadback_disposed (env : CaptureEnv) (dims : ScreenshotDims)
    (wr : World) (base : Trace) :
    (endFrameReadback env dims wr base).textureDisposed = env.readbackOk := by
  unfold endFrameReadback
  split <;> split <;> simp_all

/-- Reduction of a capture that reaches the render pass: once the readiness
poll succeeds, the size is valid, and the antialiasing effect (if requested)
either starts ready or finishes compiling, the whole operation is the
readiness-success continuation applied to the overridden world. -/
theorem capture_reaches_render (env : CaptureEnv) (p : CaptureParams) (aspect : ℚ)
    (w0 : World)
    (hready : env.readinessOk = true)
    (haa : p.antialiasing = true → env.effectReadyAtCreation = true ∨ env.compileCompletes = true)
    (hvalid : ¬((captureDims p aspect w0).height = 0 ∨ (captureDims p aspect w0).width = 0)) :
    CreateScreenshotUsingRenderTarget env p aspect w0 =
      onReadySuccess env p (captureDims p aspect w0)
        (screenshotTextureOf p (captureDims p aspect w0) w0) w0
        { w0 with engine := overriddenEngine (captureDims p aspect w0) w0.engine } := by
  unfold CreateScreenshotUsingRenderTarget renderToTexture renderWhenReady
  rw [if_neg hvalid]
  by_cases hp : p.antialiasing = true
  · rcases haa hp with he | hc
    · simp [hp, he, hready]
    · by_cases he2 : env.effectReadyAtCreation = true
      · simp [hp, he2, hready]
      · simp [hp, he2, hc, hready]
  · rw [Bool.not_eq_true] at hp
    simp [hp, hready]

/-- C4: while a capture is active the overridden render-size accessors report
the requested capture width/height to any caller, except that when a render
target is bound and the `useScreen` flag is not passed, they report the bound
target's own width/height; the engine in effect during the render pass is
exactly the one carrying these overrides. -/
theorem override_accessors_report_capture_size (dims : ScreenshotDims) (e : EngineState)
    (t : RTSize) (rt : Option RTSize) (p : CaptureParams) (tex : RTTState) (w : World) :
    ((overriddenEngine dims e).getRenderWidth false (some t) = t.width) ∧
    ((overriddenEngine dims e).getRenderHeight false (some t) = t.height) ∧
    ((overriddenEngine dims e).getRenderWidth false none = dims.width) ∧
    ((overriddenEngine dims e).getRenderHeight false none = dims.height) ∧
    ((overriddenEngine dims e).getRenderWidth true rt = dims.width) ∧
    ((overriddenEngine dims e).getRenderHeight true rt = dims.height) ∧
    ((overriddenEngine dims e).skipFrameRender = true) ∧
    ((worldAtRenderPass p tex w).engine = w.engine) :=
  ⟨rfl, rfl, rfl, rfl, rfl, rfl, rfl, rfl⟩

/-- C1 (amended): every capture that reaches the render pass restores the
scene's activeCamera, activeCameras, spritesEnabled and mesh list, the
camera's outputRenderTarget, and the engine's getRenderWidth/getRenderHeight
accessors to their exact pre-capture values — identically whether
`scene.render()` succeeds or throws — while `engine.skipFrameRender` is
unconditionally set to `false` rather than restored (it matches its
pre-capture value exactly when the capture began with it `false`). -/
theorem capture_restores_scene_and_accessors (env : CaptureEnv) (p : CaptureParams)
    (aspect : ℚ) (w0 : World)
    (hready : env.readinessOk = true)
    (haa : p.antialiasing = true → env.effectReadyAtCreation = true ∨ env.compileCompletes = true)
    (hvalid : ¬((captureDims p aspect w0).height = 0 ∨ (captureDims p aspect w0).width = 0)) :
    ((CreateScreenshotUsingRenderTarget env p aspect w0).2.renderCount = 1) ∧
    ((CreateScreenshotUsingRenderTarget env p aspect w0).2.renderThrew = env.renderThrows) ∧
    ((CreateScreenshotUsingRenderTarget env p aspect w0).1.scene = w0.scene) ∧
    ((CreateScreenshotUsingRenderTarget env p aspect w0).1.camera = w0.camera) ∧
    ((CreateScreenshotUsingRenderTarget env p aspect w0).1.engine.getRenderWidth =
      w0.engine.getRenderWidth) ∧
    ((CreateScreenshotUsingRenderTarget env p aspect w0).1.engine.getRenderHeight =
      w0.engine.getRenderHeight) ∧
    ((CreateScreenshotUsingRenderTarget env p aspect w0).1.engine.currentRenderTarget =
      w0.engine.currentRenderTarget) ∧
    ((CreateScreenshotUsingRenderTarget env p aspect w0).1.engine.skipFrameRender = false) := by
  rw [capture_reaches_render env p aspect w0 hready haa hvalid]
  refine ⟨?_, ?_, rfl, rfl, rfl, rfl, rfl, rfl⟩
  · exact endFrameReadback_renderCount ..
  · exact endFrameReadback_renderThrew ..

/-- C1 counterexample: a capture that reaches the render pass does not restore
`engine.skipFrameRender` to its pre-capture value `true`; it always ends
`false`. -/
theorem capture_skipFrameRender_not_restored :
    skipTrueWorld.engine.skipFrameRender = true ∧
    (CreateScreenshotUsingRenderTarget sampleEnv sampleParams 2 skipTrueWorld).2.renderCount
      = 1 ∧
    (CreateScreenshotUsingRenderTarget sampleEnv sampleParams 2
      skipTrueWorld).1.engine.skipFrameRender = false := by
  refine ⟨rfl, ?_, ?_⟩ <;> decide

/-- C1 witness at a concrete capture request. -/
theorem capture_restores_scene_and_accessors_witness :
    (sampleEnv.readinessOk = true) ∧
    (sampleParams.antialiasing = true →
      sampleEnv.effectReadyAtCreation = true ∨ sampleEnv.compileCompletes = true) ∧
    ¬((captureDims sampleParams 2 sampleWorld).height = 0 ∨
      (captureDims sampleParams 2 sampleWorld).width = 0) ∧
    ((CreateScreenshotUsingRenderTarget sampleEnv sampleParams 2 sampleWorld).1.scene =
      sampleWorld.scene) :=
  ⟨by decide, by decide, by decide,
    (capture_restores_scene_and_accessors sampleEnv sampleParams 2 sampleWorld
      (by decide) (by decide) (by decide)).2.2.1⟩

end Screenshot

namespace Screenshot

/-- C2 (amended): every capture with a valid resolved size that reaches the
render pass performs exactly one render pass and allocates exactly one
offscreen texture; the texture is disposed exactly when the pixel readback
succeeds — a failed readback (the promise continuation holding
`texture.dispose()` never runs) leaves the texture undisposed. -/
theorem capture_single_render_and_disposal (env : CaptureEnv) (p : CaptureParams)
    (aspect : ℚ) (w0 : World)
    (hready : env.readinessOk = true)
    (haa : p.antialiasing = true → env.effectReadyAtCreation = true ∨ env.compileCompletes = true)
    (hvalid : ¬((captureDims p aspect w0).height = 0 ∨ (captureDims p aspect w0).width = 0)) :
    ((CreateScreenshotUsingRenderTarget env p aspect w0).2.renderCount = 1) ∧
    ((CreateScreenshotUsingRenderTarget env p aspect w0).2.texturesAllocated = 1) ∧
    ((CreateScreenshotUsingRenderTarget env p aspect w0).2.textureDisposed =
      env.readbackOk) := by
  rw [capture_reaches_render env p aspect w0 hready haa hvalid]
  exact ⟨endFrameReadback_renderCount .., endFrameReadback_texturesAllocated ..,
    endFrameReadback_disposed ..⟩

/-- C2 counterexample: on a readback failure the capture allocates the texture
and renders, but never disposes the texture — the offscreen surface leaks. -/
theorem capture_readback_failure_leaks_texture :
    ((CreateScreenshotUsingRenderTarget readbackFailEnv sampleParams 2
      sampleWorld).2.texturesAllocated = 1) ∧
    ((CreateScreenshotUsingRenderTarget readbackFailEnv sampleParams 2
      sampleWorld).2.renderCount = 1) ∧
    ((CreateScreenshotUsingRenderTarget readbackFailEnv sampleParams 2
      sampleWorld).2.textureDisposed = false) := by
  refine ⟨?_, ?_, ?_⟩ <;> decide

/-- C2 witness at a concrete capture request. -/
theorem capture_single_render_and_disposal_witness :
    (sampleEnv.readinessOk = true) ∧
    (sampleParams.antialiasing = true →
      sampleEnv.effectReadyAtCreation = true ∨ sampleEnv.compileCompletes = true) ∧
    ¬((captureDims sampleParams 2 sampleWorld).height = 0 ∨
      (captureDims sampleParams 2 sampleWorld).width = 0) ∧
    ((CreateScreenshotUsingRenderTarget sampleEnv sampleParams 2 sampleWorld).2.renderCount
      = 1) :=
  ⟨by decide, by decide, by decide,
    (capture_single_render_and_disposal sampleEnv sampleParams 2 sampleWorld
      (by decide) (by decide) (by decide)).1⟩

/-- C3 (amended): whenever the resolved size is zero in either dimension, the
capture fails synchronously (the logged invalid-size error) before any
renderer or scene mutation: the returned world is exactly the input world and
the trace records nothing but the failure.  A literal `size = {width: 0}` is
read as an absent width by the truthiness checks and resolves through the
engine render-width fallback branch, so it only hits this failure when that
fallback itself yields a zero dimension. -/
theorem capture_invalid_size_no_mutation (env : CaptureEnv) (p : CaptureParams)
    (aspect : ℚ) (w0 : World)
    (hz : (captureDims p aspect w0).height = 0 ∨ (captureDims p aspect w0).width = 0) :
    CreateScreenshotUsingRenderTarget env p aspect w0 =
      (w0, { failedInvalidSize := true }) := by
  unfold CreateScreenshotUsingRenderTarget
  rw [if_pos hz]

/-- C3 counterexample: `size = {width: 0}` against an 800-wide engine at
aspect ratio 2 does not fail — it resolves to 800×400 through the fallback
branch, allocates the texture and renders. -/
theorem capture_width_zero_proceeds :
    ((CreateScreenshotUsingRenderTarget sampleEnv { size := .obj { width := some 0 } } 2
      sampleWorld).2.failedInvalidSize = false) ∧
    ((CreateScreenshotUsingRenderTarget sampleEnv { size := .obj { width := some 0 } } 2
      sampleWorld).2.texturesAllocated = 1) ∧
    ((CreateScreenshotUsingRenderTarget sampleEnv { size := .obj { width := some 0 } } 2
      sampleWorld).2.renderCount = 1) ∧
    (captureDims { size := .obj { width := some 0 } } 2 sampleWorld =
      { height := 400, width := 800, finalWidth := 800, finalHeight := 400 }) := by
  refine ⟨?_, ?_, ?_, ?_⟩ <;> decide

/-- C3 witness at a concrete zero-size request. -/
theorem capture_invalid_size_no_mutation_witness :
    ((captureDims { size := .num 0 } 2 sampleWorld).height = 0 ∨
      (captureDims { size := .num 0 } 2 sampleWorld).width = 0) ∧
    (CreateScreenshotUsingRenderTarget sampleEnv { size := .num 0 } 2 sampleWorld =
      (sampleWorld, { failedInvalidSize := true })) :=
  ⟨by decide,
    capture_invalid_size_no_mutation sampleEnv { size := .num 0 } 2 sampleWorld (by decide)⟩

end Screenshot

namespace Screenshot

theorem endFrameReadback_direct (env : CaptureEnv) (dims : ScreenshotDims)
    (wr : World) (base : Trace)
    (hc : dims.finalWidth = dims.width ∧ dims.finalHeight = dims.height)
    (hrb : env.readbackOk = true) :
    (endFrameReadback env dims wr base).usedResizePass = false ∧
    (endFrameReadback env dims wr base).dumpedSize = some (dims.width, dims.height) := by
  unfold endFrameReadback
  rw [if_pos hc, hrb]
  exact ⟨rfl, rfl⟩

theorem endFrameReadback_resize (env : CaptureEnv) (dims : ScreenshotDims)
    (wr : World) (base : Trace)
    (hc : ¬(dims.finalWidth = dims.width ∧ dims.finalHeight = dims.height))
    (hrb : env.readbackOk = true) :
    (endFrameReadback env dims wr base).usedResizePass = true ∧
    (endFrameReadback env dims wr base).dumpedSize =
      some (dims.finalWidth, dims.finalHeight) := by
  unfold endFrameReadback
  rw [if_neg hc, hrb]
  exact ⟨rfl, rfl⟩

/-- C5: after a successful render, if the raw captured dimensions equal the
final output dimensions the pixels are read directly from the offscreen
texture without a resize pass and handed to the encoder at the raw size;
otherwise the resize post-process runs and the encoder receives
(finalWidth, finalHeight).  In particular the request
width 100, height 50, finalWidth 400, finalHeight 200 captures into a
100×50 texture and encodes at 400×200 through the resize pass. -/
theorem capture_resize_selection (env : CaptureEnv) (p : CaptureParams) (aspect : ℚ)
    (w0 : World)
    (hready : env.readinessOk = true)
    (hrb : env.readbackOk = true)
    (hp : p.antialiasing = false)
    (hvalid : ¬((captureDims p aspect w0).height = 0 ∨ (captureDims p aspect w0).width = 0)) :
    (((captureDims p aspect w0).finalWidth = (captureDims p aspect w0).width ∧
      (captureDims p aspect w0).finalHeight = (captureDims p aspect w0).height) →
      ((CreateScreenshotUsingRenderTarget env p aspect w0).2.usedResizePass = false ∧
        (CreateScreenshotUsingRenderTarget env p aspect w0).2.dumpedSize =
          some ((captureDims p aspect w0).width, (captureDims p aspect w0).height))) ∧
    ((¬((captureDims p aspect w0).finalWidth = (captureDims p aspect w0).width ∧
      (captureDims p aspect w0).finalHeight = (captureDims p aspect w0).height)) →
      ((CreateScreenshotUsingRenderTarget env p aspect w0).2.usedResizePass = true ∧
        (CreateScreenshotUsingRenderTarget env p aspect w0).2.dumpedSize =
          some ((captureDims p aspect w0).finalWidth, (captureDims p aspect w0).finalHeight))) ∧
    ((CreateScreenshotUsingRenderTarget env p aspect w0).2.textureSize =
      some { width := (captureDims p aspect w0).width,
             height := (captureDims p aspect w0).height }) ∧
    ((CreateScreenshotUsingRenderTarget env resizeParams aspect w0).2.textureSize =
      some { width := 100, height := 50 }) ∧
    ((CreateScreenshotUsingRenderTarget env resizeParams aspect w0).2.usedResizePass
      = true) ∧
    ((CreateScreenshotUsingRenderTarget env resizeParams aspect w0).2.dumpedSize =
      some (400, 200)) := by
  have haa : p.antialiasing = true → env.effectReadyAtCreation = true ∨
      env.compileCompletes = true := fun h => absurd h (by rw [hp]; exact Bool.false_ne_true)
  have haa2 : resizeParams.antialiasing = true → env.effectReadyAtCreation = true ∨
      env.compileCompletes = true := fun h => absurd h (by exact Bool.false_ne_true)
  have hd : captureDims resizeParams aspect w0 =
      { height := 50, width := 100, finalWidth := 400, finalHeight := 200 } := rfl
  have hvalid2 : ¬((captureDims resizeParams aspect w0).height = 0 ∨
      (captureDims resizeParams aspect w0).width = 0) := by rw [hd]; decide
  rw [capture_reaches_render env p aspect w0 hready haa hvalid,
    capture_reaches_render env resizeParams aspect w0 hready haa2 hvalid2]
  refine ⟨fun hc => endFrameReadback_direct _ _ _ _ hc hrb,
    fun hc => endFrameReadback_resize _ _ _ _ hc hrb,
    endFrameReadback_textureSize .., ?_, ?_, ?_⟩
  · exact (endFrameReadback_textureSize ..).trans (by rw [hd]; rfl)
  · exact (endFrameReadback_resize _ _ _ _ (by rw [hd]; decide) hrb).1
  · exact ((endFrameReadback_resize _ _ _ _ (by rw [hd]; decide) hrb).2.trans
      (by rw [hd]))

/-- C5 witness at a concrete capture request exercising the resize path. -/
theorem capture_resize_selection_witness :
    (sampleEnv.readinessOk = true) ∧
    (sampleEnv.readbackOk = true) ∧
    (sampleParams.antialiasing = false) ∧
    ¬((captureDims sampleParams 2 sampleWorld).height = 0 ∨
      (captureDims sampleParams 2 sampleWorld).width = 0) ∧
    ((CreateScreenshotUsingRenderTarget sampleEnv resizeParams 2 sampleWorld).2.dumpedSize =
      some (400, 200)) :=
  ⟨by decide, by decide, by decide, by decide,
    (capture_resize_selection sampleEnv sampleParams 2 sampleWorld
      (by decide) (by decide) (by decide) (by decide)).2.2.2.2.2⟩

theorem renderToTexture_rtt_count (env : CaptureEnv) (p : CaptureParams)
    (dims : ScreenshotDims) (tex : RTTState) (w0 w : World) :
    (renderToTexture env p dims tex w0 w).2.renderToTextureCount = 1 := by
  unfold renderToTexture renderWhenReady
  split
  · exact endFrameReadback_renderToTextureCount ..
  · rfl

/-- C7: with antialiasing requested, the render-to-texture step runs once
when the FXAA effect is already compiled at creation, runs once (deferred to
the compilation callback) when the effect starts uncompiled and compilation
completes, is not executed at all while compilation never completes, and in
every case executes at most once per capture request. -/
theorem antialiasing_defers_render_to_texture (env : CaptureEnv) (p : CaptureParams)
    (aspect : ℚ) (w0 : World)
    (hvalid : ¬((captureDims p aspect w0).height = 0 ∨ (captureDims p aspect w0).width = 0))
    (hp : p.antialiasing = true) :
    (env.effectReadyAtCreation = true →
      (CreateScreenshotUsingRenderTarget env p aspect w0).2.renderToTextureCount = 1) ∧
    (env.effectReadyAtCreation = false → env.compileCompletes = true →
      (CreateScreenshotUsingRenderTarget env p aspect w0).2.renderToTextureCount = 1) ∧
    (env.effectReadyAtCreation = false → env.compileCompletes = false →
      (CreateScreenshotUsingRenderTarget env p aspect w0).2.renderToTextureCount = 0) ∧
    (CreateScreenshotUsingRenderTarget env p aspect w0).2.renderToTextureCount ≤ 1 := by
  unfold CreateScreenshotUsingRenderTarget
  rw [if_neg hvalid]
  simp only [hp, if_true]
  refine ⟨fun he => ?_, fun he hc => ?_, fun he hc => ?_, ?_⟩
  · simp only [he, if_true]
    exact renderToTexture_rtt_count ..
  · simp only [he, hc, if_true, Bool.false_eq_true, if_false]
    exact renderToTexture_rtt_count ..
  · simp only [he, hc, Bool.false_eq_true, if_false]
  · by_cases he : env.effectReadyAtCreation = true
    · simp only [he, if_true]
      rw [renderToTexture_rtt_count]
    · rw [Bool.not_eq_true] at he
      by_cases hc : env.compileCompletes = true
      · simp only [he, hc, if_true, Bool.false_eq_true, if_false]
        rw [renderToTexture_rtt_count]
      · rw [Bool.not_eq_true] at hc
        simp only [he, hc, Bool.false_eq_true, if_false]
        exact Nat.zero_le 1

/-- C7 witness: antialiasing with an immediately ready effect. -/
theorem antialiasing_defers_render_to_texture_witness :
    ¬((captureDims { size := .num 256, antialiasing := true } 2 sampleWorld).height = 0 ∨
      (captureDims { size := .num 256, antialiasing := true } 2 sampleWorld).width = 0) ∧
    (CaptureParams.antialiasing { size := .num 256, antialiasing := true } = true) ∧
    (CreateScreenshotUsingRenderTarget sampleEnv { size := .num 256, antialiasing := true }
      2 sampleWorld).2.renderToTextureCount ≤ 1 :=
  ⟨by decide, by decide,
    (antialiasing_defers_render_to_texture sampleEnv
      { size := .num 256, antialiasing := true } 2 sampleWorld
      (by decide) (by decide)).2.2.2⟩

/-- A completed capture hands back exactly the pre-capture world as long as
frame rendering was not already being skipped when it started. -/
theorem capture_final_world (env : CaptureEnv) (p : CaptureParams) (aspect : ℚ)
    (w0 : World)
    (hskip : w0.engine.skipFrameRender = false)
    (haa : p.antialiasing = true → env.effectReadyAtCreation = true ∨
      env.compileCompletes = true) :
    (CreateScreenshotUsingRenderTarget env p aspect w0).1 = w0 := by
  obtain ⟨⟨sk, gw, gh, rt⟩, sc, cam⟩ := w0
  change sk = false at hskip
  subst hskip
  simp only [CreateScreenshotUsingRenderTarget]
  split
  · rfl
  · by_cases hp : p.antialiasing = true
    · rcases haa hp with he | hc
      · simp only [hp, if_true, he]
        unfold renderToTexture renderWhenReady
        split <;> rfl
      · simp only [hp, if_true]
        by_cases he : env.effectReadyAtCreation = true <;>
          simp only [he, hc, if_true, Bool.false_eq_true, if_false] <;>
          · unfold renderToTexture renderWhenReady
            split <;> rfl
    · rw [Bool.not_eq_true] at hp
      simp only [hp, Bool.false_eq_true, if_false]
      unfold renderToTexture renderWhenReady
      split <;> rfl

/-- C8: two sequential, non-overlapping captures with identical request,
environment and pixel-readback behaviour against a scene left untouched in
between produce identical traces — in particular, byte-identical data handed
to the encoder — because the first capture restores the world exactly. -/
theorem capture_sequential_deterministic (env : CaptureEnv) (p : CaptureParams)
    (aspect : ℚ) (w0 : World)
    (hskip : w0.engine.skipFrameRender = false)
    (haa : p.antialiasing = true → env.effectReadyAtCreation = true ∨
      env.compileCompletes = true) :
    ((CreateScreenshotUsingRenderTarget env p aspect
        (CreateScreenshotUsingRenderTarget env p aspect w0).1).2.dumped =
      (CreateScreenshotUsingRenderTarget env p aspect w0).2.dumped) ∧
    ((CreateScreenshotUsingRenderTarget env p aspect
        (CreateScreenshotUsingRenderTarget env p aspect w0).1).2 =
      (CreateScreenshotUsingRenderTarget env p aspect w0).2) := by
  rw [capture_final_world env p aspect w0 hskip haa]
  exact ⟨rfl, rfl⟩

/-- C8 witness at a concrete pair of sequential captures. -/
theorem capture_sequential_deterministic_witness :
    (sampleWorld.engine.skipFrameRender = false) ∧
    (sampleParams.antialiasing = true → sampleEnv.effectReadyAtCreation = true ∨
      sampleEnv.compileCompletes = true) ∧
    ((CreateScreenshotUsingRenderTarget sampleEnv sampleParams 2
        (CreateScreenshotUsingRenderTarget sampleEnv sampleParams 2 sampleWorld).1).2 =
      (CreateScreenshotUsingRenderTarget sampleEnv sampleParams 2 sampleWorld).2) :=
  ⟨by decide, by decide,
    (capture_sequential_deterministic sampleEnv sampleParams 2 sampleWorld
      (by decide) (by decide)).2⟩

end Screenshot

namespace Screenshot

theorem jsTrunc_intCast (n : ℤ) : jsTrunc ((n : ℤ) : ℚ) = n := by
  unfold jsTrunc
  split
  · exact Int.floor_intCast n
  · exact Int.ceil_intCast n

theorem toInt32_eq_self {n : ℤ} (h1 : -(2 ^ 31) ≤ n) (h2 : n < 2 ^ 31) : toInt32 n = n := by
  unfold toInt32
  rw [Int.emod_eq_of_lt (by linarith) (by linarith)]
  ring

theorem bitOrZero_floorTruthy (x : ℚ) : bitOrZero (floorTruthy x) = toInt32 ⌊x⌋ := by
  unfold bitOrZero floorTruthy
  split
  · rw [jsFloor, jsTrunc_intCast]
  · next h =>
    rw [not_not] at h
    subst h
    norm_num [jsTrunc]

theorem computePrecision_abs (p : ℚ) :
    computePrecision (some p) = computePrecision (some (jsAbs p)) := by
  unfold computePrecision jsTruthy jsAbs optVal
  rcases eq_or_ne p 0 with h | h
  · subst h; norm_num
  · simp [h, abs_ne_zero.mpr h, abs_abs]

/-- C6: size resolution resolves a numeric `size = 256` to 256 in every
dimension, and `size = {width: 300}` at camera aspect ratio 2 to width 300,
height round(300/2) = 150, with the final dimensions defaulting to the raw
ones. -/
theorem getScreenshotSize_number_and_width_only (renderWidth aspect : ℚ) :
    GetScreenshotSize renderWidth aspect (.num 256) =
      { height := 256, width := 256, finalWidth := 256, finalHeight := 256 } ∧
    GetScreenshotSize renderWidth 2 (.obj { width := some 300 }) =
      { height := 150, width := 300, finalWidth := 300, finalHeight := 150 } :=
  ⟨rfl, rfl⟩

/-- C10: every dimension returned by `GetScreenshotSize` is the floor of the
raw computed value wrapped into signed 32-bit range (an integer, and exactly
the floor whenever the floor is within int32 range), and a precision
multiplier is applied as its absolute value, making a negative precision act
exactly like its positive counterpart. -/
theorem getScreenshotSize_floor_and_abs_precision (renderWidth aspect : ℚ) (size : SizeInput) :
    ((GetScreenshotSize renderWidth aspect size).width =
      toInt32 ⌊(ComputeScreenshotSizeRaw renderWidth aspect size).1⌋) ∧
    ((GetScreenshotSize renderWidth aspect size).height =
      toInt32 ⌊(ComputeScreenshotSizeRaw renderWidth aspect size).2.1⌋) ∧
    ((GetScreenshotSize renderWidth aspect size).finalWidth =
      toInt32 ⌊(ComputeScreenshotSizeRaw renderWidth aspect size).2.2.1⌋) ∧
    ((GetScreenshotSize renderWidth aspect size).finalHeight =
      toInt32 ⌊(ComputeScreenshotSizeRaw renderWidth aspect size).2.2.2⌋) ∧
    (∀ n : ℤ, -(2 ^ 31) ≤ n → n < 2 ^ 31 → toInt32 n = n) ∧
    (∀ o : IScreenshotSize, ∀ p : ℚ,
      GetScreenshotSize renderWidth aspect (.obj { o with precision := some p }) =
        GetScreenshotSize renderWidth aspect (.obj { o with precision := some (jsAbs p) })) := by
  refine ⟨bitOrZero_floorTruthy _, bitOrZero_floorTruthy _, bitOrZero_floorTruthy _,
    bitOrZero_floorTruthy _, fun n h1 h2 => toInt32_eq_self h1 h2, fun o p => ?_⟩
  simp only [GetScreenshotSize, ComputeScreenshotSizeRaw]
  rw [computePrecision_abs]

/-- C10 witness at concrete size inputs, including a negative fractional
precision multiplier. -/
theorem getScreenshotSize_floor_and_abs_precision_witness :
    ((GetScreenshotSize 800 2 (.num 256)).width =
      toInt32 ⌊(ComputeScreenshotSizeRaw 800 2 (.num 256)).1⌋) ∧
    (toInt32 150 = 150) ∧
    (GetScreenshotSize 800 2
        (.obj { ({ width := some 300 } : IScreenshotSize) with precision := some (-2) }) =
      GetScreenshotSize 800 2
        (.obj { ({ width := some 300 } : IScreenshotSize) with
                precision := some (jsAbs (-2)) })) :=
  ⟨(getScreenshotSize_floor_and_abs_precision 800 2 (.num 256)).1,
    (getScreenshotSize_floor_and_abs_precision 800 2 (.num 256)).2.2.2.2.1 150
      (by decide) (by decide),
    (getScreenshotSize_floor_and_abs_precision 800 2
      (.obj { width := some 300 })).2.2.2.2.2 { width := some 300 } (-2)⟩

end Screenshot

namespace GLTFRegistry

theorem mapGet_mapDelete (name : String) (m : ExtensionMap) :
    mapGet name (mapDelete name m) = none := by
  induction m with
  | nil => rfl
  | cons kv rest ih =>
    unfold mapDelete
    split
    · exact ih
    · next h => unfold mapGet; simp only [if_neg h]; exact ih

theorem mapGet_append_self (name : String) (e : RegisteredGLTFExtension)
    (m : ExtensionMap) (h : mapGet name m = none) :
    mapGet name (m ++ [(name, e)]) = some e := by
  induction m with
  | nil => simp [mapGet]
  | cons kv rest ih =>
    rw [List.cons_append]
    unfold mapGet at h ⊢
    rcases eq_or_ne kv.1 name with hk | hk
    · rw [if_pos hk] at h; exact absurd h (by simp)
    · rw [if_neg hk] at h ⊢
      exact ih h

/-- C9: registering an extension name replaces any existing registration
(last registration wins), signalling an existing registration only through
the warning Boolean, and unregistering returns true exactly when the name was
registered, leaving the name absent from the map afterwards. -/
theorem register_replaces_and_unregister_reports (name : String) (isExt : Bool)
    (factory : ℕ) (m : ExtensionMap) :
    (mapGet name (registerGLTFExtension name isExt factory m).2 =
      some { isGLTFExtension := isExt, factory := factory }) ∧
    ((registerGLTFExtension name isExt factory m).1 = (mapGet name m).isSome) ∧
    ((unregisterGLTFExtension name m).1 = (mapGet name m).isSome) ∧
    (mapGet name (unregisterGLTFExtension name m).2 = none) := by
  refine ⟨?_, rfl, rfl, mapGet_mapDelete name m⟩
  unfold registerGLTFExtension unregisterGLTFExtension
  exact mapGet_append_self name _ _ (mapGet_mapDelete name m)

end GLTFRegistry
